import Mathlib

/-!
Shallow embedding of the routing/factory core of the `ambivo_agents`
repository (`ambivo_agents/services/factory.py`): the `ProxyAgent` message
router and the `AgentFactory` construction functions, together with the
message envelope they operate on.

Python dictionaries are embedded as association lists with first-occurrence
lookup and in-place overwrite (Python dicts preserve insertion order and
assignment to an existing key keeps its position).  Python exceptions are
embedded as `Except String`: `Except.error e` is a raw exception carrying
`str(e)` propagating to the caller, `Except.ok` a normal return.
-/

set_option autoImplicit false

namespace Ambivo

/-- Embedding of Python `needle in haystack` at a fixed position:
`matchChars needle hay` is true when `needle` is a prefix of `hay`. -/
def matchChars : List Char → List Char → Bool
  | [], _ => true
  | _ :: _, [] => false
  | a :: as, b :: bs => (a == b) && matchChars as bs

/-- Embedding of Python `needle in haystack` over char lists. -/
def containsChars (needle : List Char) : List Char → Bool
  | [] => needle.isEmpty
  | b :: bs => matchChars needle (b :: bs) || containsChars needle bs

/-- Embedding of the Python substring test `needle in hay` on strings. -/
def hasSubstr (hay needle : String) : Bool :=
  containsChars needle.data hay.data

/-- Embedding of Python `s.lower()` (character-wise lowering; the routed
contents are ASCII, where this agrees with `str.lower`). -/
def pyLower (s : String) : String :=
  ⟨s.data.map Char.toLower⟩

/-- Python dict assignment `d[k] = v`: overwrite the first entry with key `k`
in place, or append a new entry at the end (insertion order semantics). -/
def dictInsert {α : Type} : List (String × α) → String → α → List (String × α)
  | [], k, v => [(k, v)]
  | (k', v') :: rest, k, v =>
    if k' = k then (k, v) :: rest else (k', v') :: dictInsert rest k v

/-- Python dict lookup `d.get(k)`: the first entry with key `k`, if any. -/
def dictGet? {α : Type} : List (String × α) → String → Option α
  | [], _ => none
  | (k', v') :: rest, k => if k' = k then some v' else dictGet? rest k

/-- Python `del d[k]`: drop the first entry with key `k`. -/
def dictErase {α : Type} : List (String × α) → String → List (String × α)
  | [], _ => []
  | (k', v') :: rest, k =>
    if k' = k then rest else (k', v') :: dictErase rest k

/-- Python `d.update(kvs)`: fold dict assignment over the new pairs. -/
def dictUpdate {α : Type} (d : List (String × α)) (kvs : List (String × α)) :
    List (String × α) :=
  kvs.foldl (fun acc kv => dictInsert acc kv.1 kv.2) d

/-- The keys of an embedded dict are pairwise distinct (true of any real
Python dict, and preserved by all the operations above). -/
def keysNodup {α : Type} (d : List (String × α)) : Prop :=
  (d.map Prod.fst).Nodup

/-- Modelled from the spec: `MessageType` (`ambivo_agents/core/base.py`, not
under src/) — "message type (user input / agent output / error / status)". -/
inductive MessageType where
  | user_input
  | agent_output
  | error
  | status
deriving DecidableEq, Repr

/-- Modelled from the spec: `AgentRole` (`ambivo_agents/core/base.py`, not
under src/) — the role enum; the members below are the ones
`services/factory.py` mentions, plus a catch-all for the remaining members
so the factory's unsupported-role branch stays reachable. -/
inductive AgentRole where
  | assistant
  | code_executor
  | researcher
  | proxy
  | other
deriving DecidableEq, Repr

/-- Modelled from the spec: the agent-instance surface the router consults
(`ambivo_agents/core/base.py`, not under src/): a registered agent exposes a
stable `agent_id`, its implementation class name (`__class__.__name__`),
and its declared role. -/
structure Agent where
  agent_id : String
  className : String
  role : AgentRole
deriving DecidableEq, Repr

/-- Modelled from the spec: the message envelope (`AgentMessage` in
`ambivo_agents/core/base.py`, not under src/): "message carries at minimum
{id, sender_id, recipient_id, content, message_type, session_id,
conversation_id, metadata}". Metadata values are embedded as strings (the
router only writes string values). -/
structure AgentMessage where
  id : String
  sender_id : String
  recipient_id : String
  content : String
  message_type : MessageType
  session_id : String
  conversation_id : String
  metadata : List (String × String)
deriving DecidableEq, Repr

/-- The router's per-instance state: its own identifier and the
`agent_registry` dict from `ProxyAgent.__init__`. -/
structure ProxyAgent where
  agent_id : String
  agent_registry : List (String × Agent)
deriving DecidableEq, Repr

/-- Modelled from the spec: `BaseAgent.create_response`
(`ambivo_agents/core/base.py`, not under src/) — builds a response message
from this agent with the given content, recipient, message type, session and
conversation ids, and empty metadata. -/
def create_response (self : ProxyAgent) (content : String)
    (recipient_id : String) (message_type : MessageType)
    (session_id conversation_id : String) : AgentMessage :=
  { id := "response"
    sender_id := self.agent_id
    recipient_id := recipient_id
    content := content
    message_type := message_type
    session_id := session_id
    conversation_id := conversation_id
    metadata := [] }

/-- Registering an agent (`ProxyAgent.register_agent`): the source checks
`agent and hasattr(agent, "agent_id")`; in the embedding every `Agent` value
carries an `agent_id`, so registration stores the agent under its id and
returns `True`. -/
def register_agent (self : ProxyAgent) (agent : Agent) : ProxyAgent × Bool :=
  ({ self with
      agent_registry := dictInsert self.agent_registry agent.agent_id agent },
   true)

/-- Embedding of `ProxyAgent.get_registered_agents`: returns `self.agent_registry.copy()`,
as the plain entry list (aliasing behaviour is modelled separately with an
explicit heap). -/
def get_registered_agents (self : ProxyAgent) : List (String × Agent) :=
  self.agent_registry

/-- Embedding of `ProxyAgent.unregister_agent`: delete and return `True` when the id is
present, otherwise return `False` leaving the registry untouched. -/
def unregister_agent (self : ProxyAgent) (agent_id : String) :
    ProxyAgent × Bool :=
  if (dictGet? self.agent_registry agent_id).isSome then
    ({ self with agent_registry := dictErase self.agent_registry agent_id },
     true)
  else
    (self, false)

/-- The six keyword rules of `ProxyAgent.process_message`, in source order. -/
inductive RouteRule where
  | youtube
  | webSearch
  | knowledgeBase
  | mediaEditor
  | codeExecutor
  | webScraper
deriving DecidableEq, Repr

/-- Keyword list of the YouTube-download branch. -/
def youtubeKeywords : List String :=
  ["youtube.com", "youtu.be", "download youtube", "youtube download",
   "download video", "download audio", "youtube mp3", "youtube mp4",
   "download from youtube"]

/-- Keyword list of the web-search branch. -/
def webSearchKeywords : List String :=
  ["search web", "web search", "find online", "search_web", "brave search",
   "aves search", "search the web", "search for"]

/-- Keyword list of the knowledge-base branch. -/
def knowledgeBaseKeywords : List String :=
  ["ingest_document", "ingest_text", "ingest", "knowledge base", "kb",
   "query_knowledge_base", "query", "search documents", "vector database",
   "qdrant", "semantic search", "document", "pdf", "docx"]

/-- Keyword list of the media-processing branch. -/
def mediaEditorKeywords : List String :=
  ["extract_audio", "convert_video", "media", "ffmpeg", "audio", "video",
   "mp4", "mp3", "wav", "extract audio", "resize video", "trim video",
   "video format", "audio format"]

/-- Keyword list of the code-execution branch. -/
def codeExecutorKeywords : List String :=
  ["execute", "run code", "python", "bash", "```python", "```bash",
   "script", "code execution"]

/-- Keyword list of the web-scraping branch. -/
def webScraperKeywords : List String :=
  ["scrape", "web scraping", "crawl", "extract from url", "scrape_url",
   "apartments.com", "scrape website"]

/-- Whether a rule's `if`/`elif` condition fires on the lowercased content.
The YouTube branch additionally tests `"youtube" in content` after its
keyword list (`any(...) or "youtube" in content`). -/
def trigger (r : RouteRule) (content : String) : Bool :=
  match r with
  | .youtube =>
    youtubeKeywords.any (fun kw => hasSubstr content kw)
      || hasSubstr content "youtube"
  | .webSearch => webSearchKeywords.any (fun kw => hasSubstr content kw)
  | .knowledgeBase =>
    knowledgeBaseKeywords.any (fun kw => hasSubstr content kw)
  | .mediaEditor => mediaEditorKeywords.any (fun kw => hasSubstr content kw)
  | .codeExecutor =>
    codeExecutorKeywords.any (fun kw => hasSubstr content kw)
  | .webScraper => webScraperKeywords.any (fun kw => hasSubstr content kw)

/-- First registry entry satisfying a key/agent predicate, in insertion
order — the `for agent_key, agent in self.agent_registry.items()` loops. -/
def findEntry (p : String → Agent → Bool) :
    List (String × Agent) → Option Agent
  | [] => none
  | (k, a) :: rest => if p k a then some a else findEntry p rest

/-- Per-rule agent lookup, exactly as the source's loop body conditions:
class-name substring, agent-key substring, or (for code execution) the
declared role. -/
def finder (r : RouteRule) (reg : List (String × Agent)) : Option Agent :=
  match r with
  | .youtube =>
    findEntry (fun k a =>
      hasSubstr a.className "YouTubeDownloadAgent"
        || hasSubstr k "youtube_download" || hasSubstr k "youtube") reg
  | .webSearch =>
    findEntry (fun k a =>
      hasSubstr a.className "WebSearchAgent"
        || hasSubstr k "web_search" || hasSubstr k "websearch") reg
  | .knowledgeBase =>
    findEntry (fun k a =>
      hasSubstr a.className "KnowledgeBaseAgent"
        || hasSubstr k "knowledge_base" || hasSubstr k "knowledge") reg
  | .mediaEditor =>
    findEntry (fun k a =>
      hasSubstr a.className "MediaEditorAgent"
        || hasSubstr k "media_editor" || hasSubstr k "mediaeditor") reg
  | .codeExecutor =>
    findEntry (fun _ a => a.role = AgentRole.code_executor) reg
  | .webScraper =>
    findEntry (fun k a =>
      hasSubstr a.className "WebScraperAgent"
        || hasSubstr k "web_scraper" || hasSubstr k "webscraper") reg

/-- The `if`/`elif` chain over the rule conditions: the first rule whose
condition fires, if any.  Later rules are not evaluated once an earlier
condition is true. -/
def firstTriggered (content : String) : Option RouteRule :=
  if trigger .youtube content then some .youtube
  else if trigger .webSearch content then some .webSearch
  else if trigger .knowledgeBase content then some .knowledgeBase
  else if trigger .mediaEditor content then some .mediaEditor
  else if trigger .codeExecutor content then some .codeExecutor
  else if trigger .webScraper content then some .webScraper
  else none

/-- The default branch: first registered agent whose role is assistant. -/
def findAssistant (reg : List (String × Agent)) : Option Agent :=
  findEntry (fun _ a => a.role = AgentRole.assistant) reg

/-- The complete target selection of `process_message`: the first firing
rule's lookup result (which may be `none` even though the rule fired), and
otherwise — no rule fired or the fired rule's lookup found nothing — the
first assistant-role agent. -/
def chooseTarget (reg : List (String × Agent)) (content : String) :
    Option Agent :=
  let ruled :=
    match firstTriggered content with
    | some r => finder r reg
    | none => none
  match ruled with
  | some a => some a
  | none => findAssistant reg

/-- Python `repr` of one string inside a list display: single-quoted. -/
def pyQuote (s : String) : String :=
  "\x27" ++ s ++ "\x27"

/-- Comma-separated quoted items of a Python list display. -/
def pyReprBody : List String → String
  | [] => ""
  | [x] => pyQuote x
  | x :: y :: rest => pyQuote x ++ ", " ++ pyReprBody (y :: rest)

/-- Python `repr` of a list of strings as interpolated by the f-string
`f"... Available agents: {available_agents}"`. -/
def pyStrListRepr (xs : List String) : String :=
  "[" ++ pyReprBody xs ++ "]"

/-- The `available_agents` enumeration built in the no-target branch:
`f"{agent.__class__.__name__} ({agent_id})"` per registry entry. -/
def availableAgents (reg : List (String × Agent)) : List String :=
  reg.map (fun kv => kv.2.className ++ " (" ++ kv.1 ++ ")")

/-- The error response returned when no target agent was found. -/
def noAgentResponse (self : ProxyAgent) (message : AgentMessage) :
    AgentMessage :=
  create_response self
    ("I couldn\x27t find an appropriate agent to handle your request. Available agents: "
      ++ pyStrListRepr (availableAgents self.agent_registry))
    message.sender_id MessageType.error message.session_id
    message.conversation_id

/-- The four routing-metadata pairs `response.metadata.update({...})` adds. -/
def routingMetadata (self : ProxyAgent) (target : Agent) :
    List (String × String) :=
  [("routed_by", self.agent_id),
   ("routed_to", target.agent_id),
   ("routed_to_class", target.className),
   ("routing_reason",
    "Content matched " ++ target.className ++ " patterns")]

/-- Embedding of `ProxyAgent.process_message`.  `store` is the outcome of
`self.memory.store_message(message)` (an external collaborator that may
raise), and `dispatch` the outcome of each candidate agent's own
`process_message` on the forwarded message — both supplied as oracles.
The memory store runs before the `try:` block; everything from the content
analysis to the metadata update runs inside it, and the `except` converts
any exception `e` into an error-typed response `f"Routing error: {str(e)}"`. -/
def process_message (self : ProxyAgent) (store : Except String Unit)
    (dispatch : Agent → AgentMessage → Except String AgentMessage)
    (message : AgentMessage) : Except String AgentMessage :=
  match store with
  | .error e => .error e
  | .ok _ =>
    let body : Except String AgentMessage :=
      let content := pyLower message.content
      match chooseTarget self.agent_registry content with
      | some target =>
        match dispatch target message with
        | .error e => .error e
        | .ok resp =>
          .ok { resp with
                metadata :=
                  dictUpdate resp.metadata (routingMetadata self target) }
      | none => .ok (noAgentResponse self message)
    match body with
    | .ok r => .ok r
    | .error e =>
      .ok (create_response self ("Routing error: " ++ e) message.sender_id
        MessageType.error message.session_id message.conversation_id)

/-- The result of a factory construction: which concrete agent class was
instantiated.  Specialized-agent constructors and their module imports are
external collaborators (their modules are not part of the routing core) and
are modelled as succeeding. -/
inductive CreatedAgent where
  | assistantAgent
  | codeExecutorAgent
  | proxyAgent
  | knowledgeBaseAgent
  | webSearchAgent
  | youTubeDownloadAgent
  | webScraperAgent
  | mediaEditorAgent
  | moderatorAgent
deriving DecidableEq, Repr

/-- A capability mapping: capability name to boolean flag. -/
abbrev Capabilities : Type := List (String × Bool)

/-- Python `capabilities.get(name, False)`: flag value, absent keys false. -/
def capGet (caps : Capabilities) (name : String) : Bool :=
  (dictGet? caps name).getD false

/-- Modelled from the spec: `validate_agent_capabilities`
(`ambivo_agents/config/loader.py`, not under src/) — "a mapping from
capability name to boolean, sourced from an external configuration loader;
absence of a key is treated as false".  The factory's quantification is
over the resulting capability mapping, so the embedding passes it through. -/
def validate_agent_capabilities (caps : Capabilities) : Capabilities :=
  caps

/-- The `AgentRole.RESEARCHER` branch of `AgentFactory.create_agent`: the
`if`/`elif` chain over `capabilities.get(...)` in the source's priority
order, falling back to `AssistantAgent` when no flag is true.  (In the
source each taken branch wraps its constructor in `try`/`except` whose
failure also falls through to the assistant; constructors are modelled as
succeeding.) -/
def createResearcherAgent (caps : Capabilities) : CreatedAgent :=
  if capGet caps "knowledge_base" then .knowledgeBaseAgent
  else if capGet caps "web_search" then .webSearchAgent
  else if capGet caps "youtube_download" then .youTubeDownloadAgent
  else if capGet caps "web_scraping" then .webScraperAgent
  else if capGet caps "media_editor" then .mediaEditorAgent
  else .assistantAgent

/-- Embedding of `AgentFactory.create_agent`: dispatch on the role enum; unsupported
roles raise `ValueError(f"Unsupported agent role: {role}")`. -/
def create_agent (role : AgentRole) (caps : Capabilities) :
    Except String CreatedAgent :=
  match role with
  | .assistant => .ok .assistantAgent
  | .code_executor => .ok .codeExecutorAgent
  | .researcher =>
    .ok (createResearcherAgent (validate_agent_capabilities caps))
  | .proxy => .ok .proxyAgent
  | .other => .error "Unsupported agent role"

/-- Embedding of `AgentFactory.create_specialized_agent`: string-typed dispatch with a
strict capability precondition per specialized type (note `web_scraper`
checks the `web_scraping` flag); `moderator` has no capability check;
unknown types raise. -/
def create_specialized_agent (agent_type : String) (caps0 : Capabilities) :
    Except String CreatedAgent :=
  let capabilities := validate_agent_capabilities caps0
  if agent_type = "knowledge_base" then
    if !(capGet capabilities "knowledge_base") then
      .error "Knowledge base not enabled in agent_config.yaml"
    else .ok .knowledgeBaseAgent
  else if agent_type = "web_scraper" then
    if !(capGet capabilities "web_scraping") then
      .error "Web scraping not enabled in agent_config.yaml"
    else .ok .webScraperAgent
  else if agent_type = "web_search" then
    if !(capGet capabilities "web_search") then
      .error "Web search not enabled in agent_config.yaml"
    else .ok .webSearchAgent
  else if agent_type = "media_editor" then
    if !(capGet capabilities "media_editor") then
      .error "Media editor not enabled in agent_config.yaml"
    else .ok .mediaEditorAgent
  else if agent_type = "youtube_download" then
    if !(capGet capabilities "youtube_download") then
      .error "YouTube download not enabled in agent_config.yaml"
    else .ok .youTubeDownloadAgent
  else if agent_type = "moderator" then
    .ok .moderatorAgent
  else
    .error ("Unknown or unavailable agent type: " ++ agent_type)

/-!
Heap model for the defensive-copy behaviour of `get_registered_agents`.
Python dict objects live on a heap and are passed by reference; `.copy()`
allocates a fresh object with the same entries.  The heap is a list of
dict cells addressed by index; the proxy holds the address of its
`agent_registry` cell.
-/

/-- A heap of dict cells. -/
abbrev Heap : Type := List (List (String × Agent))

/-- Read the cell at an address. -/
def heapGet (h : Heap) (addr : Nat) : List (String × Agent) :=
  h[addr]?.getD []

/-- Overwrite the cell at an address (a mutation of that dict object). -/
def heapSet (h : Heap) (addr : Nat) (v : List (String × Agent)) : Heap :=
  List.set h addr v

/-- Allocate a fresh cell holding `v`; its address is the old heap length. -/
def heapAlloc (h : Heap) (v : List (String × Agent)) : Heap × Nat :=
  (h ++ [v], h.length)

/-- Embedding of `ProxyAgent.get_registered_agents` on the heap model: return
`self.agent_registry.copy()` — allocate a fresh dict cell holding a copy of
the entries of the registry cell at `selfAddr`, and hand back its address. -/
def get_registered_agents_heap (h : Heap) (selfAddr : Nat) : Heap × Nat :=
  heapAlloc h (heapGet h selfAddr)

/-! ### Lemmas about the embedded string, dict and heap operations -/

theorem matchChars_append (n t : List Char) : matchChars n (n ++ t) = true := by
  induction n with
  | nil => rfl
  | cons a as ih => simp [matchChars, ih]

theorem containsChars_append (p n t : List Char) :
    containsChars n (p ++ (n ++ t)) = true := by
  induction p with
  | nil =>
    cases n with
    | nil =>
      cases t with
      | nil => rfl
      | cons b bs => simp [containsChars, matchChars]
    | cons a as =>
      simp [containsChars]
      exact Or.inl (matchChars_append (a :: as) t)
  | cons c cs ih => simp [containsChars, ih]

theorem hasSubstr_of_data (hay needle : String) (p t : List Char)
    (h : hay.data = p ++ (needle.data ++ t)) : hasSubstr hay needle = true := by
  unfold hasSubstr
  rw [h]
  exact containsChars_append _ _ _

theorem pyReprBody_mem (x : String) (xs : List String) (hx : x ∈ xs) :
    ∃ p t : List Char, (pyReprBody xs).data = p ++ (x.data ++ t) := by
  induction xs with
  | nil => cases hx
  | cons y ys ih =>
    cases hx with
    | head =>
      cases ys with
      | nil =>
        refine ⟨[Char.ofNat 39], [Char.ofNat 39], ?_⟩
        simp [pyReprBody, pyQuote, String.data_append]
      | cons z zs =>
        refine ⟨[Char.ofNat 39],
          Char.ofNat 39 :: (", " ++ pyReprBody (z :: zs)).data, ?_⟩
        simp [pyReprBody, pyQuote, String.data_append]
    | tail _ hmem =>
      obtain ⟨p, t, hpt⟩ := ih hmem
      cases ys with
      | nil => cases hmem
      | cons z zs =>
        refine ⟨(pyQuote y ++ ", ").data ++ p, t, ?_⟩
        simp [pyReprBody, String.data_append, hpt]

theorem hasSubstr_pyRepr (A x : String) (xs : List String) (hx : x ∈ xs) :
    hasSubstr (A ++ pyStrListRepr xs) x = true := by
  obtain ⟨p, t, hpt⟩ := pyReprBody_mem x xs hx
  apply hasSubstr_of_data _ _ (A.data ++ ('[' :: p)) (t ++ [']'])
  simp [pyStrListRepr, String.data_append, hpt]

theorem mem_keys_dictInsert {α : Type} (d : List (String × α)) (k : String)
    (v : α) (x : String) :
    x ∈ (dictInsert d k v).map Prod.fst ↔ x ∈ d.map Prod.fst ∨ x = k := by
  induction d with
  | nil => simp [dictInsert]
  | cons kv rest ih =>
    obtain ⟨k', v'⟩ := kv
    by_cases hk : k' = k
    · subst hk
      simp [dictInsert]
      tauto
    · simp [dictInsert, hk, ih]
      tauto

theorem keysNodup_dictInsert {α : Type} (d : List (String × α)) (k : String)
    (v : α) (h : keysNodup d) : keysNodup (dictInsert d k v) := by
  induction d with
  | nil =>
    unfold keysNodup dictInsert
    simp
  | cons kv rest ih =>
    obtain ⟨k', v'⟩ := kv
    unfold keysNodup at h ⊢
    rw [List.map_cons, List.nodup_cons] at h
    by_cases hk : k' = k
    · subst hk
      rw [show dictInsert ((k', v') :: rest) k' v = (k', v) :: rest by
        unfold dictInsert; simp]
      rw [List.map_cons, List.nodup_cons]
      exact h
    · have hstep : dictInsert ((k', v') :: rest) k v = (k', v') :: dictInsert rest k v := by
        simp [dictInsert, hk]
      rw [hstep, List.map_cons, List.nodup_cons]
      refine ⟨?_, ih h.2⟩
      intro hmem
      rcases (mem_keys_dictInsert rest k v k').mp hmem with h1 | h1
      · exact h.1 h1
      · exact hk h1

theorem filter_eq_nil_of_not_mem_keys {α : Type} (d : List (String × α))
    (k : String) (h : k ∉ d.map Prod.fst) :
    d.filter (fun kv => kv.1 == k) = [] := by
  induction d with
  | nil => rfl
  | cons kv rest ih =>
    obtain ⟨k', v'⟩ := kv
    rw [List.map_cons, List.mem_cons] at h
    push_neg at h
    have hne : (k' == k) = false :=
      beq_eq_false_iff_ne.mpr (fun hkk => h.1 hkk.symm)
    rw [List.filter_cons]
    simp only [hne, Bool.false_eq_true, if_false]
    exact ih h.2

theorem filter_dictInsert {α : Type} (d : List (String × α)) (k : String)
    (v : α) (h : keysNodup d) :
    (dictInsert d k v).filter (fun kv => kv.1 == k) = [(k, v)] := by
  induction d with
  | nil => simp [dictInsert]
  | cons kv rest ih =>
    obtain ⟨k', v'⟩ := kv
    unfold keysNodup at h
    rw [List.map_cons, List.nodup_cons] at h
    by_cases hk : k' = k
    · subst hk
      rw [show dictInsert ((k', v') :: rest) k' v = (k', v) :: rest by
        unfold dictInsert; simp]
      rw [List.filter_cons]
      simp [filter_eq_nil_of_not_mem_keys rest k' h.1]
    · have hstep : dictInsert ((k', v') :: rest) k v = (k', v') :: dictInsert rest k v := by
        simp [dictInsert, hk]
      rw [hstep]
      have hne : (k' == k) = false := beq_eq_false_iff_ne.mpr hk
      rw [List.filter_cons]
      simp only [hne, Bool.false_eq_true, if_false]
      exact ih h.2

/-! ### Claim theorems -/

/-- C2: for every capability mapping and every explicitly named specialized
agent type among knowledge_base, web_scraper, web_search, media_editor and
youtube_download, if the corresponding capability flag is false (or absent,
which `capGet` reads as false), `AgentFactory.create_specialized_agent`
raises a `ValueError` naming the missing capability and returns no
instance; no fallback to another agent type happens. -/
theorem specialized_agent_requires_capability (caps : Capabilities) :
    (capGet caps "knowledge_base" = false →
      create_specialized_agent "knowledge_base" caps =
        Except.error "Knowledge base not enabled in agent_config.yaml") ∧
    (capGet caps "web_scraping" = false →
      create_specialized_agent "web_scraper" caps =
        Except.error "Web scraping not enabled in agent_config.yaml") ∧
    (capGet caps "web_search" = false →
      create_specialized_agent "web_search" caps =
        Except.error "Web search not enabled in agent_config.yaml") ∧
    (capGet caps "media_editor" = false →
      create_specialized_agent "media_editor" caps =
        Except.error "Media editor not enabled in agent_config.yaml") ∧
    (capGet caps "youtube_download" = false →
      create_specialized_agent "youtube_download" caps =
        Except.error "YouTube download not enabled in agent_config.yaml") := by
  refine ⟨?_, ?_, ?_, ?_, ?_⟩ <;> intro h <;>
    simp [create_specialized_agent, validate_agent_capabilities, h]

/-- C2 witness: with the empty capability mapping (every flag absent, hence
false), constructing a `web_scraper` fails with the configuration error. -/
theorem specialized_agent_requires_capability_witness :
    capGet [] "web_scraping" = false ∧
    create_specialized_agent "web_scraper" [] =
      Except.error "Web scraping not enabled in agent_config.yaml" :=
  ⟨rfl, (specialized_agent_requires_capability []).2.1 rfl⟩

/-- C3: for every capability mapping, `AgentFactory.create_agent` with the
researcher role instantiates the agent of the first enabled capability in
the fixed order knowledge_base, web_search, youtube_download, web_scraping,
media_editor, and returns an `AssistantAgent` when none of the five flags
is true. -/
theorem researcher_priority_order (caps : Capabilities) :
    (capGet caps "knowledge_base" = true →
      create_agent AgentRole.researcher caps =
        Except.ok CreatedAgent.knowledgeBaseAgent) ∧
    (capGet caps "knowledge_base" = false →
      capGet caps "web_search" = true →
      create_agent AgentRole.researcher caps =
        Except.ok CreatedAgent.webSearchAgent) ∧
    (capGet caps "knowledge_base" = false →
      capGet caps "web_search" = false →
      capGet caps "youtube_download" = true →
      create_agent AgentRole.researcher caps =
        Except.ok CreatedAgent.youTubeDownloadAgent) ∧
    (capGet caps "knowledge_base" = false →
      capGet caps "web_search" = false →
      capGet caps "youtube_download" = false →
      capGet caps "web_scraping" = true →
      create_agent AgentRole.researcher caps =
        Except.ok CreatedAgent.webScraperAgent) ∧
    (capGet caps "knowledge_base" = false →
      capGet caps "web_search" = false →
      capGet caps "youtube_download" = false →
      capGet caps "web_scraping" = false →
      capGet caps "media_editor" = true →
      create_agent AgentRole.researcher caps =
        Except.ok CreatedAgent.mediaEditorAgent) ∧
    (capGet caps "knowledge_base" = false →
      capGet caps "web_search" = false →
      capGet caps "youtube_download" = false →
      capGet caps "web_scraping" = false →
      capGet caps "media_editor" = false →
      create_agent AgentRole.researcher caps =
        Except.ok CreatedAgent.assistantAgent) := by
  refine ⟨?_, ?_, ?_, ?_, ?_, ?_⟩ <;> intros <;>
    simp_all [create_agent, createResearcherAgent, validate_agent_capabilities]

/-- C3 witness: with exactly the web_search flag true the researcher role
yields the web-search agent, and with all flags absent it degrades to the
assistant. -/
theorem researcher_priority_order_witness :
    create_agent AgentRole.researcher [("web_search", true)] =
      Except.ok CreatedAgent.webSearchAgent ∧
    create_agent AgentRole.researcher [] =
      Except.ok CreatedAgent.assistantAgent :=
  ⟨(researcher_priority_order [("web_search", true)]).2.1 rfl rfl,
   (researcher_priority_order []).2.2.2.2.2 rfl rfl rfl rfl rfl⟩

/-- C10: for every capability mapping — including one where every flag is
false — `AgentFactory.create_specialized_agent` with agent_type "moderator"
constructs a `ModeratorAgent` without any capability-flag check and without
raising. -/
theorem moderator_skips_capability_check (caps : Capabilities) :
    create_specialized_agent "moderator" caps =
      Except.ok CreatedAgent.moderatorAgent := by
  simp [create_specialized_agent, validate_agent_capabilities]

/-- C6: registering the same agent identifier twice leaves exactly one
entry for that identifier — the second registration overwrites the first —
and unregistering an identifier not in the registry returns False and
leaves the registry unchanged. -/
theorem register_overwrite_unregister_noop (self : ProxyAgent)
    (a b : Agent) (hid : b.agent_id = a.agent_id)
    (hnd : keysNodup self.agent_registry)
    (ghost : String) (hmiss : dictGet? self.agent_registry ghost = none) :
    ((register_agent (register_agent self a).1 b).1.agent_registry).filter
        (fun kv => kv.1 == a.agent_id) = [(a.agent_id, b)] ∧
    unregister_agent self ghost = (self, false) := by
  constructor
  · simp only [register_agent]
    rw [hid]
    exact filter_dictInsert _ _ _
      (keysNodup_dictInsert self.agent_registry a.agent_id a hnd)
  · simp [unregister_agent, hmiss]

/-- C6 witness: two registrations of id "dup" on an empty registry leave a
single entry holding the second agent, and unregistering an absent id is a
failing no-op. -/
theorem register_overwrite_unregister_noop_witness :
    ((register_agent
        (register_agent { agent_id := "proxy", agent_registry := [] }
          { agent_id := "dup", className := "AssistantAgent",
            role := AgentRole.assistant }).1
        { agent_id := "dup", className := "WebSearchAgent",
          role := AgentRole.researcher }).1.agent_registry).filter
      (fun kv => kv.1 == "dup") =
      [("dup", { agent_id := "dup", className := "WebSearchAgent",
                 role := AgentRole.researcher })] ∧
    unregister_agent { agent_id := "proxy", agent_registry := [] } "ghost" =
      ({ agent_id := "proxy", agent_registry := [] }, false) :=
  register_overwrite_unregister_noop
    { agent_id := "proxy", agent_registry := [] }
    { agent_id := "dup", className := "AssistantAgent",
      role := AgentRole.assistant }
    { agent_id := "dup", className := "WebSearchAgent",
      role := AgentRole.researcher }
    rfl (by simp [keysNodup]) "ghost" rfl

/-- C8: `get_registered_agents` hands back a dict equal in entries to the
internal registry but allocated at a fresh heap address, so mutations
through the returned dict leave the registry cell unchanged. -/
theorem get_registered_agents_defensive_copy (h : Heap) (selfAddr : Nat)
    (hv : selfAddr < h.length) :
    heapGet (get_registered_agents_heap h selfAddr).1
        (get_registered_agents_heap h selfAddr).2 = heapGet h selfAddr ∧
    (get_registered_agents_heap h selfAddr).2 ≠ selfAddr ∧
    ∀ v, heapGet (heapSet (get_registered_agents_heap h selfAddr).1
          (get_registered_agents_heap h selfAddr).2 v) selfAddr =
        heapGet h selfAddr := by
  refine ⟨?_, ?_, ?_⟩
  · simp [get_registered_agents_heap, heapAlloc, heapGet,
      List.getElem?_concat_length]
  · simp only [get_registered_agents_heap, heapAlloc]
    omega
  · intro v
    simp only [get_registered_agents_heap, heapAlloc, heapSet, heapGet]
    rw [List.getElem?_set_ne (by omega), List.getElem?_append_left hv]

/-- C8 witness: on a one-cell heap holding a one-entry registry at address
0, the copy lives at address 1, carries the same entries, and overwriting
it leaves the registry cell intact. -/
theorem get_registered_agents_defensive_copy_witness :
    heapGet (get_registered_agents_heap
        [[("as1", { agent_id := "as1", className := "AssistantAgent",
                    role := AgentRole.assistant })]] 0).1
      (get_registered_agents_heap
        [[("as1", { agent_id := "as1", className := "AssistantAgent",
                    role := AgentRole.assistant })]] 0).2 =
      [("as1", { agent_id := "as1", className := "AssistantAgent",
                 role := AgentRole.assistant })] ∧
    heapGet (heapSet (get_registered_agents_heap
        [[("as1", { agent_id := "as1", className := "AssistantAgent",
                    role := AgentRole.assistant })]] 0).1
      (get_registered_agents_heap
        [[("as1", { agent_id := "as1", className := "AssistantAgent",
                    role := AgentRole.assistant })]] 0).2 []) 0 =
      [("as1", { agent_id := "as1", className := "AssistantAgent",
                 role := AgentRole.assistant })] := by
  have hmain := get_registered_agents_defensive_copy
    [[("as1", { agent_id := "as1", className := "AssistantAgent",
                role := AgentRole.assistant })]] 0 (by decide)
  exact ⟨hmain.1, hmain.2.2 []⟩

/-! ### Concrete fixtures used by the routing theorems and witnesses -/

/-- A registered YouTube download agent. -/
def ytAgent : Agent :=
  { agent_id := "yt1", className := "YouTubeDownloadAgent",
    role := AgentRole.researcher }

/-- A registered general assistant agent. -/
def asAgent : Agent :=
  { agent_id := "as1", className := "AssistantAgent",
    role := AgentRole.assistant }

/-- A registered web-search agent (non-assistant role). -/
def wsAgent : Agent :=
  { agent_id := "ws1", className := "WebSearchAgent",
    role := AgentRole.researcher }

/-- The spec example registry {yt1: YouTubeDownloadAgent, as1: AssistantAgent}. -/
def exProxy : ProxyAgent :=
  { agent_id := "proxy", agent_registry := [("yt1", ytAgent), ("as1", asAgent)] }

/-- A proxy whose only registered agent is the web-search agent. -/
def wsProxy : ProxyAgent :=
  { agent_id := "proxy", agent_registry := [("ws1", wsAgent)] }

/-- An inbound user message with the given content. -/
def userMsg (content : String) : AgentMessage :=
  { id := "m1", sender_id := "user", recipient_id := "proxy",
    content := content, message_type := MessageType.user_input,
    session_id := "s", conversation_id := "c", metadata := [] }

/-- A response produced by the chosen agent. -/
def ytResp : AgentMessage :=
  { id := "r1", sender_id := "yt1", recipient_id := "user",
    content := "downloaded", message_type := MessageType.agent_output,
    session_id := "s", conversation_id := "c", metadata := [] }

/-- A dispatch oracle on which every agent succeeds with `ytResp`. -/
def okDispatch : Agent → AgentMessage → Except String AgentMessage :=
  fun _ _ => Except.ok ytResp

/-- A dispatch oracle on which every agent raises. -/
def failDispatch : Agent → AgentMessage → Except String AgentMessage :=
  fun _ _ => Except.error "agent exploded"

/-- C1 counterexample: an exception raised by the memory-storage step is NOT
caught — `self.memory.store_message(message)` runs before the `try:` block,
so the raw exception propagates to the caller of `process_message`. -/
theorem store_exception_propagates_raw :
    process_message exProxy (Except.error "memory backend down") okDispatch
      (userMsg "hello there, nice day") =
      Except.error "memory backend down" := rfl

/-- C1 amended: once the memory-storage step has succeeded, every exception
raised inside the routing body — content analysis, agent lookup, and the
chosen agent process_message call — is caught and converted into an
error-typed response whose content carries the exception text prefixed with
"Routing error: "; no raw exception escapes past the `try:` block. -/
theorem router_catches_exceptions_inside_try (self : ProxyAgent)
    (dispatch : Agent → AgentMessage → Except String AgentMessage)
    (msg : AgentMessage) :
    (process_message self (Except.ok ()) dispatch msg).isOk = true ∧
    (∀ t e, chooseTarget self.agent_registry (pyLower msg.content) = some t →
      dispatch t msg = Except.error e →
      process_message self (Except.ok ()) dispatch msg =
        Except.ok (create_response self ("Routing error: " ++ e)
          msg.sender_id MessageType.error msg.session_id
          msg.conversation_id)) := by
  constructor
  · unfold process_message
    cases hct : chooseTarget self.agent_registry (pyLower msg.content) with
    | some t =>
      cases hd : dispatch t msg with
      | error e => simp [hct, hd, Except.isOk, Except.toBool]
      | ok r => simp [hct, hd, Except.isOk, Except.toBool]
    | none => simp [hct, Except.isOk, Except.toBool]
  · intro t e hct hd
    unfold process_message
    simp [hct, hd]

/-- C1 amended witness: with the store succeeding and the chosen YouTube
agent raising "agent exploded", the router returns the error-typed
"Routing error: agent exploded" response instead of propagating. -/
theorem router_catches_exceptions_inside_try_witness :
    process_message exProxy (Except.ok ()) failDispatch
      (userMsg "please download https://youtube.com/watch?v=abc") =
      Except.ok (create_response exProxy "Routing error: agent exploded"
        "user" MessageType.error "s" "c") :=
  (router_catches_exceptions_inside_try exProxy failDispatch
    (userMsg "please download https://youtube.com/watch?v=abc")).2
    ytAgent "agent exploded" (by decide) rfl

/-- C4 counterexample: content "Search for youtube.com" carries both a
media-download keyword and a web-search keyword, yet with only a
web-search agent registered the router chooses no agent at all (the
media-download rule fires, finds no matching agent, and the message falls
through to the no-agent error response) — it is not routed to any
media-download-capable agent. -/
theorem media_keyword_without_media_agent_unrouted :
    hasSubstr (pyLower "Search for youtube.com") "youtube.com" = true ∧
    hasSubstr (pyLower "Search for youtube.com") "search for" = true ∧
    chooseTarget wsProxy.agent_registry (pyLower "Search for youtube.com") =
      none ∧
    process_message wsProxy (Except.ok ()) okDispatch
      (userMsg "Search for youtube.com") =
      Except.ok (noAgentResponse wsProxy (userMsg "Search for youtube.com")) ∧
    (noAgentResponse wsProxy (userMsg "Search for youtube.com")).message_type
      = MessageType.error := by
  refine ⟨by decide, by decide, by decide, rfl, rfl⟩

/-- C4 amended: for every registry, a message whose lowercased content
contains both "youtube.com" and "search for" is handled by the
media-download rule alone: the chosen agent is the first registry entry
matching the media-download lookup if one exists, and otherwise the default
assistant — the web-search rule is never evaluated, so no agent is ever
chosen through it.  In particular, whenever a media-download-capable agent
is registered, it is the one chosen. -/
theorem media_download_rule_preempts_web_search
    (reg : List (String × Agent)) (content : String)
    (h1 : hasSubstr content "youtube.com" = true)
    (_h2 : hasSubstr content "search for" = true) :
    chooseTarget reg content =
      (finder RouteRule.youtube reg).elim (findAssistant reg) some := by
  have htrig : trigger RouteRule.youtube content = true := by
    simp [trigger, youtubeKeywords, h1]
  have hfirst : firstTriggered content = some RouteRule.youtube := by
    simp [firstTriggered, htrig]
  simp only [chooseTarget, hfirst]
  cases hf : finder RouteRule.youtube reg <;> simp [hf]

/-- C4 amended witness: with the YouTube agent registered, the message
containing both keywords is routed to it, not to the web-search rule. -/
theorem media_download_rule_preempts_web_search_witness :
    chooseTarget exProxy.agent_registry (pyLower "Search for youtube.com") =
      some ytAgent := by
  have hmain := media_download_rule_preempts_web_search
    exProxy.agent_registry (pyLower "Search for youtube.com")
    (by decide) (by decide)
  rw [hmain]
  decide

/-- C5: for every registry with no assistant-role agent and every message
firing no keyword rule, `process_message` returns — without raising — an
error-typed response whose content enumerates every registered agent as
"ClassName (agent_id)" inside a Python list display; with an empty registry
the enumeration is the empty list "[]". -/
theorem no_agent_error_enumerates_registry (self : ProxyAgent)
    (dispatch : Agent → AgentMessage → Except String AgentMessage)
    (msg : AgentMessage)
    (hrule : firstTriggered (pyLower msg.content) = none)
    (hasst : findAssistant self.agent_registry = none) :
    process_message self (Except.ok ()) dispatch msg =
      Except.ok (noAgentResponse self msg) ∧
    (noAgentResponse self msg).message_type = MessageType.error ∧
    (∀ kv ∈ self.agent_registry,
      hasSubstr (noAgentResponse self msg).content
        (kv.2.className ++ " (" ++ kv.1 ++ ")") = true) ∧
    (self.agent_registry = [] →
      (noAgentResponse self msg).content =
        "I couldn\x27t find an appropriate agent to handle your request. Available agents: []") := by
  have hct : chooseTarget self.agent_registry (pyLower msg.content) = none := by
    simp [chooseTarget, hrule, hasst]
  refine ⟨?_, rfl, ?_, ?_⟩
  · unfold process_message
    simp [hct]
  · intro kv hkv
    have hmem : (kv.2.className ++ " (" ++ kv.1 ++ ")")
        ∈ availableAgents self.agent_registry :=
      List.mem_map_of_mem _ hkv
    exact hasSubstr_pyRepr _ _ _ hmem
  · intro hreg
    simp [noAgentResponse, create_response, availableAgents, hreg,
      pyStrListRepr, pyReprBody]

/-- C5 witness: a no-keyword message on the empty registry yields the error
response whose enumeration is the empty list. -/
theorem no_agent_error_enumerates_registry_witness :
    process_message { agent_id := "proxy", agent_registry := [] }
      (Except.ok ()) okDispatch (userMsg "hello there, nice day") =
      Except.ok (noAgentResponse { agent_id := "proxy", agent_registry := [] }
        (userMsg "hello there, nice day")) ∧
    (noAgentResponse { agent_id := "proxy", agent_registry := [] }
      (userMsg "hello there, nice day")).content =
      "I couldn\x27t find an appropriate agent to handle your request. Available agents: []" := by
  have hmain := no_agent_error_enumerates_registry
    { agent_id := "proxy", agent_registry := [] } okDispatch
    (userMsg "hello there, nice day") (by decide) rfl
  exact ⟨hmain.1, hmain.2.2.2 rfl⟩

/-- C7: on every successful routing the inbound message is forwarded
unmodified to the chosen agent, and the returned response is that agent
response with its metadata updated by exactly the four routing keys
routed_by, routed_to, routed_to_class and routing_reason; in particular,
for registry {yt1: YouTubeDownloadAgent, as1: AssistantAgent} and content
"please download https://youtube.com/watch?v=abc" the chosen agent is yt1
and the response metadata carries routed_to = "yt1". -/
theorem routing_metadata_keys :
    (∀ (self : ProxyAgent)
      (dispatch : Agent → AgentMessage → Except String AgentMessage)
      (msg : AgentMessage) (t : Agent) (resp : AgentMessage),
      chooseTarget self.agent_registry (pyLower msg.content) = some t →
      dispatch t msg = Except.ok resp →
      process_message self (Except.ok ()) dispatch msg =
        Except.ok { resp with
          metadata := dictUpdate resp.metadata (routingMetadata self t) }) ∧
    chooseTarget exProxy.agent_registry
      (pyLower "please download https://youtube.com/watch?v=abc") =
      some ytAgent ∧
    process_message exProxy (Except.ok ()) okDispatch
      (userMsg "please download https://youtube.com/watch?v=abc") =
      Except.ok { ytResp with
        metadata := dictUpdate ytResp.metadata
          (routingMetadata exProxy ytAgent) } ∧
    dictGet? (dictUpdate ytResp.metadata (routingMetadata exProxy ytAgent))
      "routed_to" = some "yt1" := by
  refine ⟨?_, by decide, rfl, by decide⟩
  intro self dispatch msg t resp hct hd
  unfold process_message
  simp [hct, hd]

/-- C7 witness: the general routing equation applied to the spec example
registry and message. -/
theorem routing_metadata_keys_witness :
    process_message exProxy (Except.ok ()) okDispatch
      (userMsg "please download https://youtube.com/watch?v=abc") =
      Except.ok { ytResp with
        metadata := dictUpdate ytResp.metadata
          (routingMetadata exProxy ytAgent) } :=
  routing_metadata_keys.1 exProxy okDispatch
    (userMsg "please download https://youtube.com/watch?v=abc")
    ytAgent ytResp (by decide) rfl

/-- C9: when the first firing keyword rule finds no registered agent
matching its lookup criteria, no lower-priority rule is evaluated: the
router falls directly to the first assistant-role agent, and if none is
registered it produces the (non-exceptional) no-agent error response. -/
theorem rule_match_without_agent_short_circuits (self : ProxyAgent)
    (dispatch : Agent → AgentMessage → Except String AgentMessage)
    (msg : AgentMessage) (r : RouteRule)
    (h1 : firstTriggered (pyLower msg.content) = some r)
    (h2 : finder r self.agent_registry = none) :
    chooseTarget self.agent_registry (pyLower msg.content) =
      findAssistant self.agent_registry ∧
    (findAssistant self.agent_registry = none →
      process_message self (Except.ok ()) dispatch msg =
        Except.ok (noAgentResponse self msg) ∧
      (noAgentResponse self msg).message_type = MessageType.error) := by
  have hct : chooseTarget self.agent_registry (pyLower msg.content) =
      findAssistant self.agent_registry := by
    simp only [chooseTarget, h1, h2]
  refine ⟨hct, ?_⟩
  intro hasst
  refine ⟨?_, rfl⟩
  unfold process_message
  simp [hct, hasst]

/-- C9 witness: "youtube search for cats" fires the media-download rule;
only a web-search agent is registered (whose own rule also matches the
content), yet the router never consults the web-search rule and, lacking
an assistant, returns the no-agent error response. -/
theorem rule_match_without_agent_short_circuits_witness :
    process_message wsProxy (Except.ok ()) okDispatch
      (userMsg "youtube search for cats") =
      Except.ok (noAgentResponse wsProxy (userMsg "youtube search for cats")) := by
  have hmain := rule_match_without_agent_short_circuits wsProxy okDispatch
    (userMsg "youtube search for cats") RouteRule.youtube
    (by decide) (by decide)
  exact (hmain.2 (by decide)).1

end Ambivo
